import Mathlib

/-!
Shallow embedding of `src/assessment/ocsf-exporter.js` (class `OCSFExporter`),
the OCSF 1.6.0 exporter of the Tikun13 Amendment-13 compliance checker.

JavaScript objects, arrays and strings are modelled as Lean structures, lists
and strings.  The free-form `answers` questionnaire object is modelled as an
association list from field names to JS-like values (`JValue`), so that field
deletion (`sanitizeAnswers`) and field presence/truthiness checks can be
stated faithfully.  `Date.now()` is an ambient clock in the source; here every
operation takes the timestamp as an explicit argument, as the spec's injected
clock.  Number/date formatting helpers (`toLocaleString`, `toISOString`) are
abstracted by deterministic pure functions of their input, since no exported
field's correctness claim depends on the exact rendered text.
-/

set_option maxHeartbeats 1000000

namespace Tikun13

/-- JS-like values that can occur in the free-form `answers` object:
strings, numbers, arrays of string tags, and booleans. -/
inductive JValue where
  | str : String → JValue
  | num : Int → JValue
  | arr : List String → JValue
  | boolean : Bool → JValue
deriving DecidableEq, Repr

/-- JS truthiness of a `JValue`: empty string and zero are falsy, every
array (even the empty one) is truthy. -/
def JValue.truthy : JValue → Bool
  | .str s => decide (s ≠ "")
  | .num n => decide (n ≠ 0)
  | .arr _ => true
  | .boolean b => b

/-- The free-form `answers` questionnaire object: an association list of
field names to values, first binding wins (JS objects have unique keys). -/
abbrev Answers := List (String × JValue)

/-- JS property lookup `answers[k]`: first entry whose key is `k`,
`none` when the property is absent (JS `undefined`). -/
def getField : Answers → String → Option JValue
  | [], _ => none
  | (k0, v0) :: rest, k => if k0 = k then some v0 else getField rest k

/-- Lookup of a field expected to hold a string; non-string values and
absent fields give `none` (a strict `===` comparison with them fails). -/
def strField (a : Answers) (k : String) : Option String :=
  match getField a k with
  | some (JValue.str s) => some s
  | _ => none

/-- `answers.sensitive_data` read as an array of tags; `none` when the field
is absent or not an array. -/
def sensitiveData (a : Answers) : Option (List String) :=
  match getField a "sensitive_data" with
  | some (JValue.arr l) => some l
  | _ => none

/-- JS truthiness of `answers.sensitive_data` (used by `getAffectedResources`:
`answers.sensitive_data ? 4 : 2`). -/
def sensitiveDataPresent (a : Answers) : Bool :=
  match getField a "sensitive_data" with
  | some v => v.truthy
  | none => false

/-- `answers.sensitive_data && answers.sensitive_data.length > 0`. -/
def hasSensitiveData (a : Answers) : Bool :=
  match sensitiveData a with
  | some l => decide (l.length > 0)
  | none => false

/-- `answers.sensitive_data || []`, as used for `sensitive_data_types`. -/
def sensitiveDataTypes (a : Answers) : List String :=
  (sensitiveData a).getD []

/-- JS `x || d` on an optional string: the fallback fires on absence and on
the (falsy) empty string. -/
def strOr (s : Option String) (d : String) : String :=
  match s with
  | some v => if v = "" then d else v
  | none => d

/-- One failed compliance check, produced by the (out-of-scope) scoring
engine. -/
structure Violation where
  description : String
  category : String
  severity : String
  law_reference : Option String
  fine : Option Nat
deriving DecidableEq, Repr

/-- One remediation recommendation from the scoring engine. -/
structure Recommendation where
  priority : String
  category : String
  action : String
  description : String
  timeline : String
  reference : Option String
deriving DecidableEq, Repr

/-- The assessment result object handed to the exporter.  `riskLevel` models
`results.riskLevel?.label`; `complianceMatrix` is an opaque pass-through. -/
structure AssessmentResult where
  score : Int
  riskLevel : Option String
  violations : List Violation
  totalFines : Int
  recommendations : List Recommendation
  complianceMatrix : Option JValue
deriving DecidableEq, Repr

/-- The exporter's `this.product` descriptor. -/
structure Product where
  name : String
  vendor_name : String
  version : String
deriving DecidableEq, Repr

/-- `this.version` in the constructor. -/
def ocsfVersion : String := "1.6.0"

/-- `this.product` in the constructor. -/
def ocsfProduct : Product :=
  { name := "Tikun13 Compliance Checker"
    vendor_name := "Amendment 13 Assessment Tool"
    version := "1.0.0" }

/-- Abstraction of `new Date(timestamp).toISOString()`: a deterministic pure
function of the timestamp (the exact rendered text is not modelled). -/
def isoString (timestamp : Nat) : String :=
  "1970-01-01T00:00:00." ++ toString timestamp ++ "Z"

/-- Abstraction of `Number#toLocaleString()` on a fine: a deterministic pure
function of the number (thousands separators are not modelled). -/
def localeString (n : Nat) : String := toString n

/-- `map((v, index) => f(index, v))` starting from index `i`. -/
def mapWithIndexFrom (f : Nat → α → β) (i : Nat) : List α → List β
  | [] => []
  | x :: xs => f i x :: mapWithIndexFrom f (i + 1) xs

/-- JS `Array#map` with the element index. -/
def mapWithIndex (f : Nat → α → β) (l : List α) : List β :=
  mapWithIndexFrom f 0 l

/-- `mapSeverity`: severity string to OCSF `severity_id`. -/
def mapSeverity (severity : String) : Nat :=
  if severity = "critical" then 5
  else if severity = "high" then 4
  else if severity = "medium" then 3
  else if severity = "low" then 2
  else if severity = "info" then 1
  else 0

/-- `mapImpact`: severity string to OCSF `impact_id`. -/
def mapImpact (severity : String) : Nat :=
  if severity = "critical" then 4
  else if severity = "high" then 3
  else if severity = "medium" then 2
  else if severity = "low" then 1
  else if severity = "info" then 0
  else 0

/-- `mapRiskLevel`: localized risk label to `risk_level_id`; absent or
unrecognized labels map to 0. -/
def mapRiskLevel (riskLabel : Option String) : Nat :=
  match riskLabel with
  | some l =>
    if l = "קריטי" then 4
    else if l = "גבוה מאוד" then 4
    else if l = "גבוה" then 3
    else if l = "בינוני" then 2
    else if l = "נמוך" then 1
    else 0
  | none => 0

/-- `getDetailedDescription`. -/
def getDetailedDescription (violation : Violation) : String :=
  violation.description ++ ". סעיף חוק: " ++ strOr violation.law_reference "כללי" ++
  ". קטגוריה: " ++ violation.category ++ ". קנס פוטנציאלי: ₪" ++
  (match violation.fine with
   | some n => localeString n
   | none => "0")

/-- `getRemediationText`: join the actions of same-category recommendations,
falling back to a generic Hebrew instruction. -/
def getRemediationText (violation : Violation) (recommendations : List Recommendation) : String :=
  let relevantRecs := recommendations.filter (fun r => r.category = violation.category)
  if relevantRecs.length > 0 then
    String.intercalate "; " (relevantRecs.map (fun r => r.action))
  else
    "יש לתקן את ההפרה בהתאם לדרישות " ++ strOr violation.law_reference "תיקון 13"

/-- `getKnowledgeBaseArticles` lookup table with generated fallback. -/
def getKnowledgeBaseArticles (category : String) : List String :=
  if category = "dpo" then ["https://www.gov.il/he/departments/guides/data_protection_officer"]
  else if category = "registration" then ["https://www.gov.il/he/service/database_registration"]
  else if category = "security" then ["https://www.gov.il/he/departments/guides/data_security_regulations"]
  else if category = "consent" then ["https://www.gov.il/he/departments/guides/consent_management"]
  else if category = "access_rights" then ["https://www.gov.il/he/departments/guides/data_subject_rights"]
  else if category = "privacy_notice" then ["https://www.gov.il/he/departments/guides/privacy_policy_requirements"]
  else ["tikun13-" ++ category ++ "-guide"]

/-- `getOrganizationType` lookup table with the generic fallback. -/
def getOrganizationType (orgType : Option String) : String :=
  match orgType with
  | some "public" => "גוף ציבורי"
  | some "private" => "חברה פרטית"
  | some "databroker" => "סוחר נתונים"
  | some "security" => "גוף ביטחוני"
  | some "financial" => "מוסד פיננסי"
  | some "healthcare" => "מוסד רפואי"
  | _ => "ארגון"

/-- `getDataScale` lookup table with the `Unknown` fallback. -/
def getDataScale (dataSubjectsCount : Option String) : String :=
  match dataSubjectsCount with
  | some "less_10k" => "Small (<10K)"
  | some "10k_100k" => "Medium (10K-100K)"
  | some "100k_500k" => "Large (100K-500K)"
  | some "500k_1m" => "Very Large (500K-1M)"
  | some "over_1m" => "Enterprise (>1M)"
  | _ => "Unknown"

/-- `getDataSecurityCategory` lookup table with the generic fallback. -/
def getDataSecurityCategory (violationCategory : String) : String :=
  if violationCategory = "consent" then "Consent Management"
  else if violationCategory = "data_subjects" then "Data Subject Rights"
  else if violationCategory = "access_rights" then "Access Control"
  else if violationCategory = "data_minimization" then "Data Minimization"
  else if violationCategory = "privacy_notice" then "Privacy Notice"
  else if violationCategory = "third_party" then "Third Party Sharing"
  else "Privacy Violation"

/-- `getConfidentialityLevel`: priority-ordered confidentiality mapping over
`answers.sensitive_data`. -/
def getConfidentialityLevel (sd : Option (List String)) : Nat :=
  match sd with
  | none => 1
  | some l =>
    if l.length = 0 then 1
    else if "medical" ∈ l ∨ "biometric" ∈ l then 4
    else if "financial" ∈ l ∨ "criminal" ∈ l then 3
    else 2

/-- `getDataViolationDescription`: the violation description, extended with
sensitive-data tags and data-scale when present. -/
def getDataViolationDescription (violation : Violation) (answers : Answers) : String :=
  let d0 := violation.description
  let d1 :=
    match sensitiveData answers with
    | some l => if l.length > 0 then d0 ++ ". מידע רגיש: " ++ String.intercalate ", " l else d0
    | none => d0
  match strField answers "data_subjects_count" with
  | some c => if c = "" then d1 else d1 ++ ". היקף נושאי מידע: " ++ getDataScale (some c)
  | none => d1

/-- One affected resource in a Data Security Finding. -/
structure Resource where
  type : String
  name : String
  uid : String
  criticality : Nat
deriving DecidableEq, Repr

/-- `getAffectedResources`: resources pushed per violation category. -/
def getAffectedResources (violation : Violation) (answers : Answers) : List Resource :=
  (if violation.category = "data_subjects" ∨ violation.category = "consent" then
    [{ type := "Database"
       name := "Personal Data Repository"
       uid := "pdr-001"
       criticality := if sensitiveDataPresent answers then 4 else 2 }]
   else []) ++
  (if violation.category = "third_party" then
    [{ type := "Third Party Integration"
       name := "External Data Processors"
       uid := "ext-proc-001"
       criticality := 3 }]
   else [])

/-- `requiresDPO`: public body or data broker, or non-empty sensitive data at
one of the three largest scale buckets. -/
def requiresDPO (answers : Answers) : Bool :=
  decide (strField answers "org_type" = some "public") ||
  decide (strField answers "org_type" = some "databroker") ||
  (hasSensitiveData answers &&
    (match strField answers "data_subjects_count" with
     | some c => decide (c = "100k_500k" ∨ c = "500k_1m" ∨ c = "over_1m")
     | none => false))

/-- Keys kept by `sanitizeAnswers` (everything except the two PII keys). -/
def keepKey (k : String) : Bool :=
  decide (¬(k = "organization_name" ∨ k = "contact_details"))

/-- `sanitizeAnswers`: shallow copy of the answers object with the
`organization_name` and `contact_details` properties deleted; modelled as
key filtering on the association list (the original list is untouched). -/
def sanitizeAnswers (answers : Answers) : Answers :=
  answers.filter (fun p => keepKey p.1)

/-- The `compliance` block of a Compliance Finding. -/
structure ComplianceInfo where
  requirements : List String
  control : String
  standards : List String
  status : String
  status_detail : String
deriving DecidableEq, Repr

/-- `finding_info` of a Compliance Finding (class 2003); it carries a
`modified_time`, unlike the 2006 one. -/
structure CFFindingInfo where
  title : String
  uid : String
  desc : String
  types : List String
  created_time : Nat
  modified_time : Nat
  product_uid : String
deriving DecidableEq, Repr

/-- `remediation` block of a Compliance Finding. -/
structure Remediation where
  desc : String
  kb_articles : List String
deriving DecidableEq, Repr

/-- Finding-level `metadata` of a Compliance Finding. -/
structure CFMetadata where
  version : String
  product : Product
  original_time : String
  processed_time : Nat
  log_name : String
  log_provider : String
deriving DecidableEq, Repr

/-- `organization` block of a Compliance Finding. -/
structure Organization where
  name : String
  ou_name : String
deriving DecidableEq, Repr

/-- `unmapped` block of a Compliance Finding. -/
structure UnmappedCF where
  fine_amount_ils : Option Nat
  violation_category : String
  sensitive_data_types : List String
  compliance_score : Int
  assessment_answers : Answers
deriving DecidableEq, Repr

/-- One OCSF Compliance Finding (class_uid 2003). -/
structure ComplianceFinding where
  activity_id : Nat
  category_uid : Nat
  class_uid : Nat
  time : Nat
  severity_id : Nat
  type_uid : Nat
  compliance : ComplianceInfo
  finding_info : CFFindingInfo
  risk_level_id : Nat
  impact_id : Nat
  confidence_id : Nat
  status_id : Nat
  disposition_id : Nat
  remediation : Remediation
  impact_score : Nat
  metadata : CFMetadata
  organization : Organization
  unmapped : UnmappedCF
deriving DecidableEq, Repr

/-- `createComplianceFinding`, field by field from the source; `timestamp`
stands for the `Date.now()` read at the top of the function. -/
def createComplianceFinding (timestamp : Nat) (violation : Violation) (index : Nat)
    (results : AssessmentResult) (answers : Answers) : ComplianceFinding :=
  { activity_id := 1
    category_uid := 2
    class_uid := 2003
    time := timestamp
    severity_id := mapSeverity violation.severity
    type_uid := 200301
    compliance :=
      { requirements := ["Israeli Privacy Protection Law - Amendment 13"]
        control := strOr violation.law_reference "General Requirement"
        standards := ["IL-PPL-Amendment-13-2025"]
        status := "Non-Compliant"
        status_detail := violation.description }
    finding_info :=
      { title := violation.description
        uid := "tikun13-" ++ toString timestamp ++ "-" ++ toString index
        desc := getDetailedDescription violation
        types := [violation.category]
        created_time := timestamp
        modified_time := timestamp
        product_uid := "tikun13-checker" }
    risk_level_id := mapRiskLevel results.riskLevel
    impact_id := mapImpact violation.severity
    confidence_id := 3
    status_id := 1
    disposition_id := 99
    remediation :=
      { desc := getRemediationText violation results.recommendations
        kb_articles := getKnowledgeBaseArticles violation.category }
    impact_score := violation.fine.getD 0
    metadata :=
      { version := ocsfVersion
        product := ocsfProduct
        original_time := isoString timestamp
        processed_time := timestamp
        log_name := "Amendment13ComplianceAssessment"
        log_provider := "Tikun13Checker" }
    organization :=
      { name := getOrganizationType (strField answers "org_type")
        ou_name := getDataScale (strField answers "data_subjects_count") }
    unmapped :=
      { fine_amount_ils := violation.fine
        violation_category := violation.category
        sensitive_data_types := sensitiveDataTypes answers
        compliance_score := results.score
        assessment_answers := sanitizeAnswers answers } }

/-- `extension` block of a document-level metadata object. -/
structure DocExtension where
  name : String
  version : String
deriving DecidableEq, Repr

/-- Document-level `metadata` of both export documents: it carries `version`,
`profiles` and `extension` only (no product descriptor). -/
structure DocMetadata where
  version : String
  profiles : List String
  extension : DocExtension
deriving DecidableEq, Repr

/-- The document returned by `exportComplianceFindings`. -/
structure CFDocument where
  version : String
  metadata : DocMetadata
  findings : List ComplianceFinding
deriving DecidableEq, Repr

/-- `exportComplianceFindings`: one Compliance Finding per violation. -/
def exportComplianceFindings (timestamp : Nat) (results : AssessmentResult)
    (answers : Answers) : CFDocument :=
  { version := ocsfVersion
    metadata :=
      { version := ocsfVersion
        profiles := ["compliance", "privacy"]
        extension := { name := "Israeli Privacy Law Amendment 13", version := "2025" } }
    findings := mapWithIndex
      (fun index violation => createComplianceFinding timestamp violation index results answers)
      results.violations }

/-- `data_security` block of a Data Security Finding. -/
structure DataSecurity where
  category_name : String
  confidentiality_id : Nat
  detection_system : String
  policy : String
deriving DecidableEq, Repr

/-- `finding_info` of a Data Security Finding (class 2006); no
`modified_time` here. -/
structure DSFindingInfo where
  title : String
  uid : String
  desc : String
  types : List String
  created_time : Nat
  product_uid : String
deriving DecidableEq, Repr

/-- Finding-level `metadata` of a Data Security Finding. -/
structure DSMetadata where
  version : String
  product : Product
  original_time : String
  processed_time : Nat
deriving DecidableEq, Repr

/-- `unmapped` block of a Data Security Finding; it keeps the whole
violation. -/
structure UnmappedDS where
  data_subjects_count : Option JValue
  sensitive_data_types : List String
  violation_details : Violation
deriving DecidableEq, Repr

/-- One OCSF Data Security Finding (class_uid 2006). -/
structure DataSecurityFinding where
  activity_id : Nat
  category_uid : Nat
  class_uid : Nat
  time : Nat
  severity_id : Nat
  type_uid : Nat
  data_security : DataSecurity
  finding_info : DSFindingInfo
  is_suspected_breach : Bool
  impact_id : Nat
  risk_level_id : Nat
  disposition_id : Nat
  status_id : Nat
  resources : List Resource
  metadata : DSMetadata
  unmapped : UnmappedDS
deriving DecidableEq, Repr

/-- `createDataSecurityFinding`, field by field from the source. -/
def createDataSecurityFinding (timestamp : Nat) (violation : Violation) (index : Nat)
    (results : AssessmentResult) (answers : Answers) : DataSecurityFinding :=
  let isSuspectedBreach :=
    decide (violation.category = "consent" ∨ violation.category = "data_subjects")
  { activity_id := 2
    category_uid := 2
    class_uid := 2006
    time := timestamp
    severity_id := mapSeverity violation.severity
    type_uid := 200602
    data_security :=
      { category_name := getDataSecurityCategory violation.category
        confidentiality_id := getConfidentialityLevel (sensitiveData answers)
        detection_system := "Amendment 13 Compliance Assessment"
        policy := strOr violation.law_reference "Privacy Protection Policy" }
    finding_info :=
      { title := violation.description
        uid := "tikun13-data-" ++ toString timestamp ++ "-" ++ toString index
        desc := getDataViolationDescription violation answers
        types := ["Privacy Violation", violation.category]
        created_time := timestamp
        product_uid := "tikun13-checker" }
    is_suspected_breach := isSuspectedBreach
    impact_id := mapImpact violation.severity
    risk_level_id := mapRiskLevel results.riskLevel
    disposition_id := if isSuspectedBreach then 2 else 99
    status_id := 1
    resources := getAffectedResources violation answers
    metadata :=
      { version := ocsfVersion
        product := ocsfProduct
        original_time := isoString timestamp
        processed_time := timestamp }
    unmapped :=
      { data_subjects_count := getField answers "data_subjects_count"
        sensitive_data_types := sensitiveDataTypes answers
        violation_details := violation } }

/-- The fixed category subset selected by `exportDataSecurityFindings`. -/
def dataCategories : List String :=
  ["data_subjects", "consent", "access_rights", "data_minimization",
   "privacy_notice", "third_party"]

/-- The document returned by `exportDataSecurityFindings`; the empty-findings
shortcut omits the document metadata, hence the `Option`. -/
structure DSDocument where
  version : String
  metadata : Option DocMetadata
  findings : List DataSecurityFinding
deriving DecidableEq, Repr

/-- `exportDataSecurityFindings`: filter to `dataCategories`, shortcut
document without metadata when nothing matches. -/
def exportDataSecurityFindings (timestamp : Nat) (results : AssessmentResult)
    (answers : Answers) : DSDocument :=
  let dataViolations := results.violations.filter (fun v => decide (v.category ∈ dataCategories))
  if dataViolations.length = 0 then
    { version := ocsfVersion, metadata := none, findings := [] }
  else
    { version := ocsfVersion
      metadata := some
        { version := ocsfVersion
          profiles := ["data_security", "privacy"]
          extension := { name := "Israeli Privacy Law Data Protection", version := "2025" } }
      findings := mapWithIndex
        (fun index violation => createDataSecurityFinding timestamp violation index results answers)
        dataViolations }

/-- One reformatted recommendation record. -/
structure RecommendationOut where
  priority : String
  category : String
  action : String
  description : String
  timeline : String
  reference : String
  uid : String
deriving DecidableEq, Repr

/-- `exportRecommendations`: 1:1 reformatting with generated uids. -/
def exportRecommendations (timestamp : Nat)
    (recommendations : List Recommendation) : List RecommendationOut :=
  mapWithIndex
    (fun index rcm =>
      { priority := rcm.priority
        category := rcm.category
        action := rcm.action
        description := rcm.description
        timeline := rcm.timeline
        reference := strOr rcm.reference "Amendment 13 Requirements"
        uid := "rec-" ++ toString timestamp ++ "-" ++ toString index })
    recommendations

/-- `report_metadata` block of the combined report. -/
structure ReportMetadata where
  generated_at : String
  assessment_type : String
  organization_type : String
  data_scale : String
deriving DecidableEq, Repr

/-- `summary` block of the combined report. -/
structure Summary where
  compliance_score : Int
  risk_level : String
  total_violations : Nat
  total_fines : Int
  critical_violations : Nat
  high_violations : Nat
  requires_dpo : Bool
  has_sensitive_data : Bool
deriving DecidableEq, Repr

/-- The combined report returned by `exportCombinedReport`. -/
structure CombinedReport where
  version : String
  report_metadata : ReportMetadata
  summary : Summary
  compliance_findings : CFDocument
  data_security_findings : DSDocument
  recommendations : List RecommendationOut
  compliance_matrix : Option JValue
deriving DecidableEq, Repr

/-- `exportCombinedReport`, with the clock injected as `timestamp`. -/
def exportCombinedReport (timestamp : Nat) (results : AssessmentResult)
    (answers : Answers) : CombinedReport :=
  { version := ocsfVersion
    report_metadata :=
      { generated_at := isoString timestamp
        assessment_type := "Amendment 13 Compliance Assessment"
        organization_type := getOrganizationType (strField answers "org_type")
        data_scale := getDataScale (strField answers "data_subjects_count") }
    summary :=
      { compliance_score := results.score
        risk_level := strOr results.riskLevel "Unknown"
        total_violations := results.violations.length
        total_fines := results.totalFines
        critical_violations := (results.violations.filter (fun v => v.severity = "critical")).length
        high_violations := (results.violations.filter (fun v => v.severity = "high")).length
        requires_dpo := requiresDPO answers
        has_sensitive_data := hasSensitiveData answers }
    compliance_findings := exportComplianceFindings timestamp results answers
    data_security_findings := exportDataSecurityFindings timestamp results answers
    recommendations := exportRecommendations timestamp results.recommendations
    compliance_matrix := results.complianceMatrix }

/-- The spec-side DPO predicate, written from the spec's words for the
refinement comparison with `requiresDPO`: public body or data broker, or
non-empty `sensitive_data` with `data_subjects_count` in one of the three
largest scale buckets. -/
def requiresDPOSpec (a : Answers) : Prop :=
  strField a "org_type" = some "public" ∨ strField a "org_type" = some "databroker" ∨
  (∃ l, sensitiveData a = some l ∧ l ≠ [] ∧
    (strField a "data_subjects_count" = some "100k_500k" ∨
     strField a "data_subjects_count" = some "500k_1m" ∨
     strField a "data_subjects_count" = some "over_1m"))

/-! ### Concrete fixtures used by the witness theorems -/

/-- A concrete consent violation used as a witness input. -/
def sampleViolation : Violation :=
  { description := "חסרה הסכמה מדעת"
    category := "consent"
    severity := "critical"
    law_reference := some "סעיף 8"
    fine := some 50000 }

/-- A concrete answers object containing the two PII keys. -/
def sampleAnswers : Answers :=
  [("org_type", JValue.str "public"),
   ("data_subjects_count", JValue.str "over_1m"),
   ("sensitive_data", JValue.arr ["medical"]),
   ("organization_name", JValue.str "Acme Ltd"),
   ("contact_details", JValue.str "ciso@acme.example")]

/-- A concrete assessment result with one consent violation. -/
def sampleResults : AssessmentResult :=
  { score := 55
    riskLevel := some "גבוה"
    violations := [sampleViolation]
    totalFines := 50000
    recommendations := []
    complianceMatrix := none }

/-- A concrete assessment result with no violation at all. -/
def emptyResults : AssessmentResult :=
  { score := 100
    riskLevel := none
    violations := []
    totalFines := 0
    recommendations := []
    complianceMatrix := none }

/-! ### Helper lemmas about the indexed map and the answers association list -/

theorem length_mapWithIndexFrom (f : Nat → α → β) (i : Nat) (l : List α) :
    (mapWithIndexFrom f i l).length = l.length := by
  induction l generalizing i with
  | nil => rfl
  | cons x xs ih => simp [mapWithIndexFrom, ih]

theorem get?_mapWithIndexFrom (f : Nat → α → β) (k i : Nat) (l : List α) :
    (mapWithIndexFrom f k l).get? i = (l.get? i).map (fun x => f (k + i) x) := by
  induction l generalizing k i with
  | nil => simp [mapWithIndexFrom]
  | cons x xs ih =>
    cases i with
    | zero => simp [mapWithIndexFrom]
    | succ n =>
      simp only [mapWithIndexFrom, List.get?]
      rw [ih]
      have h : k + 1 + n = k + (n + 1) := by omega
      rw [h]

theorem mem_mapWithIndexFrom {f : Nat → α → β} {l : List α} {b : β} :
    ∀ {i : Nat}, b ∈ mapWithIndexFrom f i l → ∃ j x, x ∈ l ∧ b = f j x := by
  induction l with
  | nil => intro i h; simp [mapWithIndexFrom] at h
  | cons x xs ih =>
    intro i h
    simp only [mapWithIndexFrom, List.mem_cons] at h
    rcases h with h | h
    · exact ⟨i, x, List.mem_cons_self x xs, h⟩
    · rcases ih h with ⟨j, y, hy, hb⟩
      exact ⟨j, y, List.mem_cons_of_mem x hy, hb⟩

theorem length_mapWithIndex (f : Nat → α → β) (l : List α) :
    (mapWithIndex f l).length = l.length :=
  length_mapWithIndexFrom f 0 l

theorem get?_mapWithIndex (f : Nat → α → β) (i : Nat) (l : List α) :
    (mapWithIndex f l).get? i = (l.get? i).map (fun x => f i x) := by
  rw [mapWithIndex, get?_mapWithIndexFrom]
  simp

theorem mem_mapWithIndex {f : Nat → α → β} {l : List α} {b : β}
    (h : b ∈ mapWithIndex f l) : ∃ j x, x ∈ l ∧ b = f j x :=
  mem_mapWithIndexFrom h

theorem getField_sanitizeAnswers (a : Answers) (k : String) :
    getField (sanitizeAnswers a) k =
      if k = "organization_name" ∨ k = "contact_details" then none
      else getField a k := by
  induction a with
  | nil => simp [sanitizeAnswers, getField]
  | cons p rest ih =>
    obtain ⟨k0, v0⟩ := p
    by_cases hkeep : keepKey k0 = true
    · have hfilter : sanitizeAnswers ((k0, v0) :: rest) = (k0, v0) :: sanitizeAnswers rest := by
        simp [sanitizeAnswers, List.filter_cons, hkeep]
      rw [hfilter]
      by_cases hk : k0 = k
      · subst hk
        have hnot : ¬(k0 = "organization_name" ∨ k0 = "contact_details") := by
          simpa [keepKey] using hkeep
        simp [getField, hnot]
      · simp [getField, hk, ih]
    · have hfilter : sanitizeAnswers ((k0, v0) :: rest) = sanitizeAnswers rest := by
        simp only [sanitizeAnswers, List.filter_cons]
        simp only [Bool.not_eq_true] at hkeep
        simp [hkeep]
      rw [hfilter, ih]
      by_cases hk : k0 = k
      · subst hk
        have hbad : k0 = "organization_name" ∨ k0 = "contact_details" := by
          simp only [Bool.not_eq_true, keepKey, decide_eq_false_iff_not, not_not] at hkeep
          exact hkeep
        simp [hbad]
      · by_cases hb : k = "organization_name" ∨ k = "contact_details"
        · simp [hb]
        · simp [hb, getField, hk]

theorem exportDataSecurityFindings_eq (ts : Nat) (r : AssessmentResult) (a : Answers) :
    exportDataSecurityFindings ts r a =
      if (r.violations.filter (fun v => decide (v.category ∈ dataCategories))).length = 0 then
        { version := ocsfVersion, metadata := none, findings := [] }
      else
        { version := ocsfVersion
          metadata := some
            { version := ocsfVersion
              profiles := ["data_security", "privacy"]
              extension := { name := "Israeli Privacy Law Data Protection", version := "2025" } }
          findings := mapWithIndex
            (fun index violation => createDataSecurityFinding ts violation index r a)
            (r.violations.filter (fun v => decide (v.category ∈ dataCategories))) } := rfl

/-! ### Claim theorems -/

/-- C2: `mapSeverity` and `mapImpact` are total: critical/high/medium/low/info
map to 5/4/3/2/1 and 4/3/2/1/0 respectively, and every other severity string
maps to 0 under both; being total Lean functions, no input raises. -/
theorem severity_impact_total :
    (mapSeverity "critical" = 5 ∧ mapSeverity "high" = 4 ∧ mapSeverity "medium" = 3
      ∧ mapSeverity "low" = 2 ∧ mapSeverity "info" = 1
      ∧ mapImpact "critical" = 4 ∧ mapImpact "high" = 3 ∧ mapImpact "medium" = 2
      ∧ mapImpact "low" = 1 ∧ mapImpact "info" = 0)
    ∧ (∀ s : String, s ∉ (["critical", "high", "medium", "low", "info"] : List String) →
        mapSeverity s = 0 ∧ mapImpact s = 0) := by
  refine ⟨by decide, ?_⟩
  intro s hs
  simp only [List.mem_cons, List.mem_singleton, not_or] at hs
  obtain ⟨h1, h2, h3, h4, h5⟩ := hs
  constructor <;> simp [mapSeverity, mapImpact, h1, h2, h3, h4, h5]

/-- C2 witness: the fallback clause at the concrete severity `unknown`. -/
theorem severity_impact_total_witness :
    (("unknown" : String) ∉ (["critical", "high", "medium", "low", "info"] : List String))
    ∧ mapSeverity "unknown" = 0 ∧ mapImpact "unknown" = 0 :=
  ⟨by decide, (severity_impact_total.2 "unknown" (by decide)).1,
    (severity_impact_total.2 "unknown" (by decide)).2⟩

/-- C4: `getConfidentialityLevel` returns 1 on an absent or empty
`sensitive_data`, 4 whenever medical or biometric tags are present, else 3
when financial or criminal tags are present, else 2; medical/biometric wins
over financial/criminal, e.g. on `[medical, financial]`. -/
theorem confidentiality_level_spec :
    (getConfidentialityLevel none = 1
      ∧ getConfidentialityLevel (some []) = 1
      ∧ getConfidentialityLevel (some ["medical", "financial"]) = 4)
    ∧ (∀ l : List String, ("medical" ∈ l ∨ "biometric" ∈ l) →
        getConfidentialityLevel (some l) = 4)
    ∧ (∀ l : List String, "medical" ∉ l → "biometric" ∉ l →
        ("financial" ∈ l ∨ "criminal" ∈ l) → getConfidentialityLevel (some l) = 3)
    ∧ (∀ l : List String, l ≠ [] → "medical" ∉ l → "biometric" ∉ l →
        "financial" ∉ l → "criminal" ∉ l → getConfidentialityLevel (some l) = 2) := by
  refine ⟨by decide, ?_, ?_, ?_⟩
  · intro l h
    have hne : ¬(l.length = 0) := by
      rcases h with h | h <;> simp [List.length_eq_zero, List.ne_nil_of_mem h]
    simp [getConfidentialityLevel, hne, h]
  · intro l hm hb hfc
    have hne : ¬(l.length = 0) := by
      rcases hfc with h | h <;> simp [List.length_eq_zero, List.ne_nil_of_mem h]
    simp [getConfidentialityLevel, hne, hm, hb, hfc]
  · intro l hl hm hb hf hc
    have hne : ¬(l.length = 0) := by simp [List.length_eq_zero, hl]
    simp [getConfidentialityLevel, hne, hm, hb, hf, hc]

/-- C4 witness: the three guarded clauses at concrete tag lists. -/
theorem confidentiality_level_spec_witness :
    (("medical" : String) ∈ (["medical", "financial"] : List String)
        ∨ ("biometric" : String) ∈ (["medical", "financial"] : List String))
    ∧ getConfidentialityLevel (some ["medical", "financial"]) = 4
    ∧ getConfidentialityLevel (some ["criminal"]) = 3
    ∧ getConfidentialityLevel (some ["other"]) = 2 :=
  ⟨by decide,
   confidentiality_level_spec.2.1 ["medical", "financial"] (by decide),
   confidentiality_level_spec.2.2.1 ["criminal"] (by decide) (by decide) (by decide),
   confidentiality_level_spec.2.2.2 ["other"] (by decide) (by decide) (by decide)
     (by decide) (by decide)⟩

/-- C5: `requiresDPO` agrees exactly with the spec-side predicate: true iff
the organization is public or a data broker, or sensitive data is present and
non-empty with a data-subjects count in one of the three largest buckets; in
particular a public `org_type` alone forces it. -/
theorem requiresDPO_spec (a : Answers) :
    (requiresDPO a = true ↔ requiresDPOSpec a)
    ∧ (strField a "org_type" = some "public" → requiresDPO a = true) := by
  constructor
  · rcases hsd : sensitiveData a with _ | l <;>
      rcases hc : strField a "data_subjects_count" with _ | c <;>
        · simp [requiresDPO, requiresDPOSpec, hasSensitiveData, hsd, hc,
            List.length_pos, List.ne_nil_of_mem]
          try tauto
  · intro h
    simp [requiresDPO, h]

/-- C5 witness: a public organization requires a DPO. -/
theorem requiresDPO_spec_witness :
    (strField sampleAnswers "org_type" = some "public")
    ∧ requiresDPO sampleAnswers = true :=
  ⟨by decide, (requiresDPO_spec sampleAnswers).2 (by decide)⟩

/-- C1: the `assessment_answers` embedded in the `unmapped` section of every
Compliance Finding is the input answers with the `organization_name` and
`contact_details` keys removed; every other key keeps its value, and every
entry of the sanitized object is an entry of the original (shallow copy: the
input association list itself is never rebuilt or altered). -/
theorem sanitizeAnswers_frame (ts idx : Nat) (v : Violation) (r : AssessmentResult)
    (a : Answers) :
    ((createComplianceFinding ts v idx r a).unmapped.assessment_answers = sanitizeAnswers a)
    ∧ (∀ f ∈ (exportComplianceFindings ts r a).findings,
        f.unmapped.assessment_answers = sanitizeAnswers a)
    ∧ getField (sanitizeAnswers a) "organization_name" = none
    ∧ getField (sanitizeAnswers a) "contact_details" = none
    ∧ (∀ k, k ≠ "organization_name" → k ≠ "contact_details" →
        getField (sanitizeAnswers a) k = getField a k)
    ∧ (∀ p ∈ sanitizeAnswers a, p ∈ a) := by
  refine ⟨rfl, ?_, ?_, ?_, ?_, ?_⟩
  · intro f hf
    simp only [exportComplianceFindings] at hf
    rcases mem_mapWithIndex hf with ⟨j, x, hx, rfl⟩
    rfl
  · simp [getField_sanitizeAnswers]
  · simp [getField_sanitizeAnswers]
  · intro k h1 h2
    simp [getField_sanitizeAnswers, h1, h2]
  · intro p hp
    exact List.mem_of_mem_filter hp

/-- C1 witness: on the concrete answers object, the PII keys are gone from
the sanitized answers while `org_type` is preserved. -/
theorem sanitizeAnswers_frame_witness :
    (("org_type" : String) ≠ "organization_name" ∧ ("org_type" : String) ≠ "contact_details")
    ∧ getField (sanitizeAnswers sampleAnswers) "org_type" = getField sampleAnswers "org_type"
    ∧ getField (sanitizeAnswers sampleAnswers) "organization_name" = none :=
  ⟨⟨by decide, by decide⟩,
   (sanitizeAnswers_frame 0 0 sampleViolation sampleResults sampleAnswers).2.2.2.2.1
     "org_type" (by decide) (by decide),
   (sanitizeAnswers_frame 0 0 sampleViolation sampleResults sampleAnswers).2.2.1⟩

/-- C3: in every finding produced by `exportDataSecurityFindings`,
`is_suspected_breach` holds exactly when the violation category is `consent`
or `data_subjects`, and `disposition_id` is 2 when it holds and 99
otherwise. -/
theorem suspected_breach_disposition (ts : Nat) (r : AssessmentResult) (a : Answers) :
    ∀ f ∈ (exportDataSecurityFindings ts r a).findings,
      (f.is_suspected_breach = true ↔
        (f.unmapped.violation_details.category = "consent" ∨
         f.unmapped.violation_details.category = "data_subjects"))
      ∧ f.disposition_id = (if f.is_suspected_breach then 2 else 99) := by
  intro f hf
  rw [exportDataSecurityFindings_eq] at hf
  by_cases h : (r.violations.filter (fun v => decide (v.category ∈ dataCategories))).length = 0
  · rw [if_pos h] at hf
    simp at hf
  · rw [if_neg h] at hf
    simp only at hf
    rcases mem_mapWithIndex hf with ⟨j, x, hx, rfl⟩
    exact ⟨by simp [createDataSecurityFinding], rfl⟩

/-- C3 witness: the concrete consent violation yields a finding with
`is_suspected_breach` and `disposition_id = 2`. -/
theorem suspected_breach_disposition_witness :
    (createDataSecurityFinding 0 sampleViolation 0 sampleResults sampleAnswers
        ∈ (exportDataSecurityFindings 0 sampleResults sampleAnswers).findings)
    ∧ (((createDataSecurityFinding 0 sampleViolation 0 sampleResults sampleAnswers).is_suspected_breach = true ↔
        ((createDataSecurityFinding 0 sampleViolation 0 sampleResults sampleAnswers).unmapped.violation_details.category = "consent" ∨
         (createDataSecurityFinding 0 sampleViolation 0 sampleResults sampleAnswers).unmapped.violation_details.category = "data_subjects"))
      ∧ (createDataSecurityFinding 0 sampleViolation 0 sampleResults sampleAnswers).disposition_id =
          (if (createDataSecurityFinding 0 sampleViolation 0 sampleResults sampleAnswers).is_suspected_breach then 2 else 99)) :=
  ⟨by decide, suspected_breach_disposition 0 sampleResults sampleAnswers _ (by decide)⟩

/-- C6: `exportDataSecurityFindings` produces one finding per violation whose
category is in the fixed set, in order; every produced finding's violation
category is in the set; and when no violation matches, the result is the
shortcut document with empty findings and the `metadata` field omitted. -/
theorem dataSecurity_filter_spec (ts : Nat) (r : AssessmentResult) (a : Answers) :
    ((exportDataSecurityFindings ts r a).findings.length
        = (r.violations.filter (fun v => decide (v.category ∈ dataCategories))).length)
    ∧ (∀ i : Nat, (exportDataSecurityFindings ts r a).findings.get? i
        = ((r.violations.filter (fun v => decide (v.category ∈ dataCategories))).get? i).map
            (fun v => createDataSecurityFinding ts v i r a))
    ∧ (∀ f ∈ (exportDataSecurityFindings ts r a).findings,
        f.unmapped.violation_details.category ∈ dataCategories)
    ∧ ((∀ v ∈ r.violations, v.category ∉ dataCategories) →
        exportDataSecurityFindings ts r a
          = { version := ocsfVersion, metadata := none, findings := [] }) := by
  by_cases h : (r.violations.filter (fun v => decide (v.category ∈ dataCategories))).length = 0
  · have hnil : r.violations.filter (fun v => decide (v.category ∈ dataCategories)) = [] :=
      List.length_eq_zero.mp h
    refine ⟨?_, ?_, ?_, ?_⟩
    · rw [exportDataSecurityFindings_eq, if_pos h]
      simp [hnil]
    · intro i
      rw [exportDataSecurityFindings_eq, if_pos h]
      simp [hnil]
    · intro f hf
      rw [exportDataSecurityFindings_eq, if_pos h] at hf
      simp at hf
    · intro _
      rw [exportDataSecurityFindings_eq, if_pos h]
  · refine ⟨?_, ?_, ?_, ?_⟩
    · rw [exportDataSecurityFindings_eq, if_neg h]
      simpa using length_mapWithIndex _ _
    · intro i
      rw [exportDataSecurityFindings_eq, if_neg h]
      simpa using get?_mapWithIndex _ i _
    · intro f hf
      rw [exportDataSecurityFindings_eq, if_neg h] at hf
      simp only at hf
      rcases mem_mapWithIndex hf with ⟨j, x, hx, rfl⟩
      have := (List.mem_filter.mp hx).2
      simpa [createDataSecurityFinding] using of_decide_eq_true this
    · intro hall
      exfalso
      apply h
      rw [List.length_eq_zero, List.filter_eq_nil_iff]
      intro v hv
      simpa using hall v hv

/-- C6 witness: with no matching violation the shortcut document is returned,
and the concrete consent violation does produce exactly one finding. -/
theorem dataSecurity_filter_spec_witness :
    (∀ v ∈ emptyResults.violations, v.category ∉ dataCategories)
    ∧ exportDataSecurityFindings 0 emptyResults []
        = { version := ocsfVersion, metadata := none, findings := [] }
    ∧ (exportDataSecurityFindings 0 sampleResults sampleAnswers).findings.length = 1 :=
  ⟨by decide, (dataSecurity_filter_spec 0 emptyResults []).2.2.2 (by decide),
   by rw [(dataSecurity_filter_spec 0 sampleResults sampleAnswers).1]; decide⟩

/-- C7: `exportComplianceFindings` emits exactly one class-2003 finding per
violation, in the order of `results.violations`, and yields the empty
findings list on an empty violations sequence instead of failing. -/
theorem complianceFindings_per_violation (ts : Nat) (r : AssessmentResult) (a : Answers) :
    ((exportComplianceFindings ts r a).findings.length = r.violations.length)
    ∧ (∀ i : Nat, (exportComplianceFindings ts r a).findings.get? i
        = (r.violations.get? i).map (fun v => createComplianceFinding ts v i r a))
    ∧ (∀ f ∈ (exportComplianceFindings ts r a).findings, f.class_uid = 2003)
    ∧ (r.violations = [] → (exportComplianceFindings ts r a).findings = []) := by
  refine ⟨?_, ?_, ?_, ?_⟩
  · simpa [exportComplianceFindings] using length_mapWithIndex _ r.violations
  · intro i
    simpa [exportComplianceFindings] using get?_mapWithIndex _ i r.violations
  · intro f hf
    simp only [exportComplianceFindings] at hf
    rcases mem_mapWithIndex hf with ⟨j, x, hx, rfl⟩
    rfl
  · intro h
    simp [exportComplianceFindings, h, mapWithIndex, mapWithIndexFrom]

/-- C7 witness: the empty violations sequence yields empty findings, and the
one-violation fixture yields a finding list of length one. -/
theorem complianceFindings_per_violation_witness :
    (emptyResults.violations = [])
    ∧ (exportComplianceFindings 0 emptyResults []).findings = []
    ∧ (exportComplianceFindings 0 sampleResults sampleAnswers).findings.length = 1 :=
  ⟨rfl, (complianceFindings_per_violation 0 emptyResults []).2.2.2 rfl,
   by rw [(complianceFindings_per_violation 0 sampleResults sampleAnswers).1]; decide⟩

/-- C8: with the clock injected as an explicit timestamp (and no random
source used by the combined report), `exportCombinedReport` is deterministic:
identical inputs give identical output in every field. -/
theorem combinedReport_deterministic (ts₁ ts₂ : Nat) (r₁ r₂ : AssessmentResult)
    (a₁ a₂ : Answers) (hts : ts₁ = ts₂) (hr : r₁ = r₂) (ha : a₁ = a₂) :
    exportCombinedReport ts₁ r₁ a₁ = exportCombinedReport ts₂ r₂ a₂ := by
  subst hts
  subst hr
  subst ha
  rfl

/-- C8 witness: two calls on the concrete fixture under the same clock
coincide. -/
theorem combinedReport_deterministic_witness :
    ((0 : Nat) = 0 ∧ sampleResults = sampleResults ∧ sampleAnswers = sampleAnswers)
    ∧ exportCombinedReport 0 sampleResults sampleAnswers
        = exportCombinedReport 0 sampleResults sampleAnswers :=
  ⟨⟨rfl, rfl, rfl⟩,
   combinedReport_deterministic 0 0 sampleResults sampleResults sampleAnswers sampleAnswers
     rfl rfl rfl⟩

/-- C9 counterexample: on an input with no matching violation the exporter
returns a Data Security document that omits `metadata` entirely, so not every
produced document carries a `metadata.version` string (nor any
`metadata.product`). -/
theorem document_metadata_counterexample :
    (exportDataSecurityFindings 0 emptyResults []).metadata = none := rfl

/-- C9 amended: every Compliance Findings document carries
`metadata.version = "1.6.0"`; a Data Security Findings document carries it
exactly when some violation matches the filtered categories (the empty
shortcut omits `metadata`); and the product descriptor with its `name`,
`vendor_name` and `version` fields sits in each individual finding's
metadata (together with version "1.6.0"), not in the document metadata. -/
theorem metadata_version_product_amended (ts : Nat) (r : AssessmentResult) (a : Answers) :
    (ocsfVersion = "1.6.0")
    ∧ ((exportComplianceFindings ts r a).metadata.version = ocsfVersion)
    ∧ (∀ f ∈ (exportComplianceFindings ts r a).findings,
        f.metadata.version = ocsfVersion ∧ f.metadata.product = ocsfProduct)
    ∧ ((r.violations.filter (fun v => decide (v.category ∈ dataCategories))) ≠ [] →
        (exportDataSecurityFindings ts r a).metadata = some
          { version := ocsfVersion
            profiles := ["data_security", "privacy"]
            extension := { name := "Israeli Privacy Law Data Protection", version := "2025" } })
    ∧ (∀ f ∈ (exportDataSecurityFindings ts r a).findings,
        f.metadata.version = ocsfVersion ∧ f.metadata.product = ocsfProduct)
    ∧ ocsfProduct.name = "Tikun13 Compliance Checker"
    ∧ ocsfProduct.vendor_name = "Amendment 13 Assessment Tool"
    ∧ ocsfProduct.version = "1.0.0" := by
  refine ⟨rfl, rfl, ?_, ?_, ?_, rfl, rfl, rfl⟩
  · intro f hf
    simp only [exportComplianceFindings] at hf
    rcases mem_mapWithIndex hf with ⟨j, x, hx, rfl⟩
    exact ⟨rfl, rfl⟩
  · intro hne
    have h : ¬((r.violations.filter (fun v => decide (v.category ∈ dataCategories))).length = 0) := by
      simpa [List.length_eq_zero] using hne
    rw [exportDataSecurityFindings_eq, if_neg h]
  · intro f hf
    rw [exportDataSecurityFindings_eq] at hf
    by_cases h : (r.violations.filter (fun v => decide (v.category ∈ dataCategories))).length = 0
    · rw [if_pos h] at hf
      simp at hf
    · rw [if_neg h] at hf
      simp only at hf
      rcases mem_mapWithIndex hf with ⟨j, x, hx, rfl⟩
      exact ⟨rfl, rfl⟩

/-- C9 amended witness: the consent-violation fixture yields a Data Security
document with metadata version "1.6.0", and its finding carries the product
descriptor. -/
theorem metadata_version_product_amended_witness :
    ((sampleResults.violations.filter (fun v => decide (v.category ∈ dataCategories))) ≠ [])
    ∧ (exportDataSecurityFindings 0 sampleResults sampleAnswers).metadata = some
        { version := ocsfVersion
          profiles := ["data_security", "privacy"]
          extension := { name := "Israeli Privacy Law Data Protection", version := "2025" } } :=
  ⟨by decide,
   (metadata_version_product_amended 0 sampleResults sampleAnswers).2.2.2.1 (by decide)⟩

/-- C10: the resources of a Data Security Finding depend only on the
violation category and the presence of `answers.sensitive_data`: for
`data_subjects` or `consent` a single Personal Data Repository resource with
criticality 4 when the field is present (even as an empty array) and 2 when
it is absent; for `third_party` a single External Data Processors resource
with criticality 3; otherwise no resources. -/
theorem affectedResources_spec (ts idx : Nat) (v : Violation) (r : AssessmentResult)
    (a : Answers) :
    ((createDataSecurityFinding ts v idx r a).resources = getAffectedResources v a)
    ∧ ((v.category = "data_subjects" ∨ v.category = "consent") →
        ((∀ l, getField a "sensitive_data" = some (JValue.arr l) →
            getAffectedResources v a
              = [{ type := "Database", name := "Personal Data Repository",
                   uid := "pdr-001", criticality := 4 }])
         ∧ (getField a "sensitive_data" = none →
            getAffectedResources v a
              = [{ type := "Database", name := "Personal Data Repository",
                   uid := "pdr-001", criticality := 2 }])))
    ∧ (v.category = "third_party" →
        getAffectedResources v a
          = [{ type := "Third Party Integration", name := "External Data Processors",
               uid := "ext-proc-001", criticality := 3 }])
    ∧ (v.category ∉ (["data_subjects", "consent", "third_party"] : List String) →
        getAffectedResources v a = []) := by
  refine ⟨rfl, ?_, ?_, ?_⟩
  · intro hcat
    have hthird : ¬(v.category = "third_party") := by
      rcases hcat with h | h <;> simp [h]
    constructor
    · intro l hl
      have hpres : sensitiveDataPresent a = true := by
        simp [sensitiveDataPresent, hl, JValue.truthy]
      unfold getAffectedResources
      rw [if_pos hcat, if_neg hthird, hpres]
      simp
    · intro hl
      have hpres : sensitiveDataPresent a = false := by
        simp [sensitiveDataPresent, hl]
      unfold getAffectedResources
      rw [if_pos hcat, if_neg hthird, hpres]
      simp
  · intro h
    have h1 : ¬(v.category = "data_subjects" ∨ v.category = "consent") := by simp [h]
    unfold getAffectedResources
    rw [if_pos h, if_neg h1]
    simp
  · intro h
    simp only [List.mem_cons, List.mem_singleton, not_or] at h
    obtain ⟨h1, h2, h3, -⟩ := h
    have hds : ¬(v.category = "data_subjects" ∨ v.category = "consent") := by simp [h1, h2]
    unfold getAffectedResources
    rw [if_neg hds, if_neg h3]
    simp

/-- C10 witness: the consent fixture with present sensitive data yields the
single criticality-4 resource, and an unrelated category yields none. -/
theorem affectedResources_spec_witness :
    ((sampleViolation.category = "data_subjects" ∨ sampleViolation.category = "consent")
      ∧ getField sampleAnswers "sensitive_data" = some (JValue.arr ["medical"]))
    ∧ getAffectedResources sampleViolation sampleAnswers
        = [{ type := "Database", name := "Personal Data Repository",
             uid := "pdr-001", criticality := 4 }] :=
  ⟨⟨by decide, by decide⟩,
   ((affectedResources_spec 0 0 sampleViolation sampleResults sampleAnswers).2.1
      (by decide)).1 ["medical"] (by decide)⟩

end Tikun13
